import Mathlib

/-!
Shallow embedding of the data-collection scripts of this repository:
`digital_study/geocoding_xy.py`, `kiosk/geocoding_public.py`,
`kiosk/geocoding_bank.py`, `kiosk/public_api.py`, `kiosk/kiosk_crawler.py`.

Remote HTTP interaction is modelled by an oracle: a function from the request
parameter that varies across calls (the classification type, the page number,
or the row-range index) to the outcome the remote side produces for that call.
An outcome is either a parsed JSON response or one of the exception classes
the scripts catch (`requests.exceptions.RequestException`,
`json.JSONDecodeError`, a catch-all `Exception`).
-/

/-- The Python value held by a cell of the address column: `None`, a float
`NaN` (pandas' missing marker), or a string.  In `get_coordinate` the guard
`if not address_query or pd.isna(address_query)` fires exactly for `None`,
`NaN` and the empty string. -/
inductive PyAddr
  | pyNone
  | nan
  | str (s : String)
deriving DecidableEq

/-- The guard on entry to `get_coordinate`
(`if not address_query or pd.isna(address_query)`): Python's `not` is true on
`None` and on the empty string, and `pd.isna` is true on `NaN` (and on `None`,
already covered). -/
def addrBlank : PyAddr → Bool
  | .pyNone => true
  | .nan => true
  | .str s => s = ""

/-- A parsed geocoding response: `status` is
`data.get('response', \x7b\x7d).get('status')` (absent field gives `none`),
and `px`, `py` are `point.get('x')` / `point.get('y')` of
`data...get('result', \x7b\x7d).get('point', \x7b\x7d)`. -/
structure GeoResp where
  status : Option String
  px : Option String
  py : Option String
deriving DecidableEq

/-- Outcome of one `requests.get` to the address endpoint: a parsed response,
or one of the three exception classes `get_coordinate` catches. -/
inductive GeoFetch
  | resp (r : GeoResp)
  | netError
  | jsonError
  | sysError
deriving DecidableEq

/-- Python truthiness of `point.get('x')`: `None` and the empty string are
falsy; the code returns the pair only `if x and y`. -/
def truthyStr : Option String → Bool
  | none => false
  | some s => s ≠ ""

/-- Python truthiness of both coordinates at once (`if x and y`). -/
def goodCoords (r : GeoResp) : Bool :=
  truthyStr r.px && truthyStr r.py

/-- The `for address_type in ['ROAD', 'PARCEL']` loop body of
`get_coordinate` (both geocoding scripts have the identical loop).  Returns
the resulting coordinate pair together with the list of classification types
for which a request was actually issued, in order.
Branches, mirroring the source:
status `OK` with truthy coordinates returns them; status `OK` without truthy
coordinates falls through to the next type; status `NOT_FOUND` falls through;
any other status returns `(None, None)` at once; each caught exception
returns `(None, None)` at once. -/
def tryTypes (oracle : String → GeoFetch) : List String →
    (Option String × Option String) × List String
  | [] => ((none, none), [])
  | t :: rest =>
    match oracle t with
    | .resp r =>
      if r.status = some "OK" then
        if goodCoords r then
          ((r.px, r.py), [t])
        else
          let p := tryTypes oracle rest
          (p.1, t :: p.2)
      else if r.status = some "NOT_FOUND" then
        let p := tryTypes oracle rest
        (p.1, t :: p.2)
      else
        ((none, none), [t])
    | _ => ((none, none), [t])

/-- `get_coordinate` of `digital_study/geocoding_xy.py` and of
`kiosk/geocoding_public.py` (the two functions are line-for-line the same
control flow; they differ only in the `crs` request parameter, which does not
affect the result shape).  The second component is the list of classification
types actually requested. -/
def get_coordinate (oracle : String → GeoFetch) (addr : PyAddr) :
    (Option String × Option String) × List String :=
  if addrBlank addr then ((none, none), [])
  else tryTypes oracle ["ROAD", "PARCEL"]

/-- Claim C10: an empty, `None` or `NaN` address query returns `(None, None)`
immediately, with no remote request issued (the attempted-classification list
is empty). -/
theorem c10_blank_address_no_request (oracle : String → GeoFetch) (addr : PyAddr)
    (h : addr = .pyNone ∨ addr = .nan ∨ addr = .str "") :
    get_coordinate oracle addr = ((none, none), []) := by
  rcases h with h | h | h <;> subst h <;> simp [get_coordinate, addrBlank]

/-- Witness for C10 at a concrete blank input. -/
theorem c10_blank_address_no_request_witness :
    get_coordinate (fun _ => GeoFetch.netError) PyAddr.pyNone = ((none, none), []) :=
  c10_blank_address_no_request (fun _ => GeoFetch.netError) PyAddr.pyNone (Or.inl rfl)

/-- Claim C8: a definitive error status (neither `OK` nor `NOT_FOUND`) on a
classification attempt makes the loop return `(None, None)` at once, with no
further classification attempted: stated for an arbitrary position of the
classification list, and in particular for the `ROAD` attempt of
`get_coordinate`, where the attempted list is exactly `["ROAD"]`. -/
theorem c8_error_status_aborts (oracle : String → GeoFetch) (addr : PyAddr)
    (t : String) (rest : List String) (r : GeoResp)
    (hb : addrBlank addr = false)
    (ht : oracle t = .resp r)
    (h1 : r.status ≠ some "OK") (h2 : r.status ≠ some "NOT_FOUND") :
    tryTypes oracle (t :: rest) = ((none, none), [t]) ∧
    (t = "ROAD" → get_coordinate oracle addr = ((none, none), ["ROAD"])) := by
  have hstep : tryTypes oracle (t :: rest) = ((none, none), [t]) := by
    simp [tryTypes, ht, h1, h2]
  refine ⟨hstep, ?_⟩
  intro hroad
  subst hroad
  have : tryTypes oracle ["ROAD", "PARCEL"] = ((none, none), ["ROAD"]) := by
    simp [tryTypes, ht, h1, h2]
  simp [get_coordinate, hb, this]

/-- Witness for C8: a concrete oracle answering the `ROAD` attempt with an
error status. -/
theorem c8_error_status_aborts_witness :
    tryTypes (fun t => if t = "ROAD" then GeoFetch.resp ⟨some "ERROR", none, none⟩
      else GeoFetch.netError) ("ROAD" :: ["PARCEL"]) = ((none, none), ["ROAD"]) ∧
    ("ROAD" = "ROAD" →
      get_coordinate (fun t => if t = "ROAD" then GeoFetch.resp ⟨some "ERROR", none, none⟩
        else GeoFetch.netError) (PyAddr.str "서울역") = ((none, none), ["ROAD"])) :=
  c8_error_status_aborts
    (fun t => if t = "ROAD" then GeoFetch.resp ⟨some "ERROR", none, none⟩
      else GeoFetch.netError)
    (PyAddr.str "서울역") "ROAD" ["PARCEL"] ⟨some "ERROR", none, none⟩
    rfl rfl (by decide) (by decide)

/-- The `ROAD` attempt ended without a definitive answer: the parsed response
had status `NOT_FOUND`, or status `OK` but with a missing/falsy coordinate
(the `[FAIL] 상태는 OK지만, 좌표가 없습니다` branch).  In both cases the
source falls through to the next classification type. -/
def roadNonDefinitive (oracle : String → GeoFetch) : Prop :=
  ∃ r, oracle "ROAD" = .resp r ∧
    (r.status = some "NOT_FOUND" ∨
      (r.status = some "OK" ∧ goodCoords r = false))

/-- The `PARCEL` attempt resolves: a parsed response with status `OK` and
truthy coordinates. -/
def parcelResolves (oracle : String → GeoFetch) : Prop :=
  ∃ r, oracle "PARCEL" = .resp r ∧ r.status = some "OK" ∧ goodCoords r = true

/-- Oracle refuting claim C1: the `ROAD` attempt answers with status `OK` but
no coordinates — not a `NOT_FOUND` status — and the code still issues the
`PARCEL` fallback request. -/
def c1Oracle : String → GeoFetch := fun t =>
  if t = "ROAD" then .resp ⟨some "OK", none, none⟩
  else .resp ⟨some "NOT_FOUND", none, none⟩

/-- Counterexample to claim C1 as stated: for this query the remote side
reports status `OK` (not a not-found status) for the `ROAD` classification,
yet a `PARCEL` fallback attempt is made — the attempted-classification list
is `["ROAD", "PARCEL"]` — refuting "a fallback attempt is made only if the
remote side reports not-found". -/
theorem c1_counterexample :
    c1Oracle "ROAD" = GeoFetch.resp ⟨some "OK", none, none⟩ ∧
    some "OK" ≠ some "NOT_FOUND" ∧
    (get_coordinate c1Oracle (PyAddr.str "서울역")).2 = ["ROAD", "PARCEL"] := by
  refine ⟨rfl, by decide, ?_⟩
  simp [get_coordinate, addrBlank, tryTypes, c1Oracle, goodCoords, truthyStr]

/-- Claim C1 as amended: for a non-blank query, `get_coordinate` first
attempts the `ROAD` classification; the single `PARCEL` fallback attempt is
made if and only if the `ROAD` attempt is non-definitive — status `NOT_FOUND`
or status `OK` without usable coordinates; and when the `ROAD` attempt is
non-definitive and the `PARCEL` attempt does not resolve, the result is
`(None, None)` (the function always returns a pair, never propagating an
exception: every caught exception path returns `(None, None)`). -/
theorem c1_amended_road_then_conditional_parcel (oracle : String → GeoFetch)
    (addr : PyAddr) (hb : addrBlank addr = false) :
    ((get_coordinate oracle addr).2).head? = some "ROAD" ∧
    ("PARCEL" ∈ (get_coordinate oracle addr).2 ↔ roadNonDefinitive oracle) ∧
    (roadNonDefinitive oracle → ¬ parcelResolves oracle →
      (get_coordinate oracle addr).1 = (none, none)) := by
  have hg : get_coordinate oracle addr = tryTypes oracle ["ROAD", "PARCEL"] := by
    simp [get_coordinate, hb]
  rw [hg]
  rcases hR : oracle "ROAD" with r | _ | _ | _
  · by_cases h1 : r.status = some "OK"
    · by_cases h2 : goodCoords r = true
      · -- ROAD resolves: no fallback, road definitive
        have ht : tryTypes oracle ["ROAD", "PARCEL"] = ((r.px, r.py), ["ROAD"]) := by
          simp [tryTypes, hR, h1, h2]
        rw [ht]
        have hnd : ¬ roadNonDefinitive oracle := by
          rintro ⟨r', hr', hcase⟩
          rw [hR] at hr'
          cases hr'
          rcases hcase with hnf | ⟨_, hbad⟩
          · rw [h1] at hnf; exact absurd hnf (by decide)
          · rw [h2] at hbad; exact absurd hbad (by decide)
        simp [hnd]
      · -- ROAD status OK but unusable coordinates: falls through to PARCEL
        have hnd : roadNonDefinitive oracle :=
          ⟨r, hR, Or.inr ⟨h1, by simpa using h2⟩⟩
        have ht : tryTypes oracle ["ROAD", "PARCEL"] =
            ((tryTypes oracle ["PARCEL"]).1, "ROAD" :: (tryTypes oracle ["PARCEL"]).2) := by
          simp [tryTypes, hR, h1, h2]
        rw [ht]
        refine ⟨rfl, ?_, ?_⟩
        · constructor
          · intro _; exact hnd
          · intro _
            rcases hP : oracle "PARCEL" with rp | _ | _ | _
            · simp only [tryTypes, hP]
              by_cases hp1 : rp.status = some "OK"
              · by_cases hp2 : goodCoords rp = true <;> simp [hp1, hp2]
              · by_cases hp3 : rp.status = some "NOT_FOUND" <;> simp [hp1, hp3]
            · simp [tryTypes, hP]
            · simp [tryTypes, hP]
            · simp [tryTypes, hP]
        · intro _ hnp
          rcases hP : oracle "PARCEL" with rp | _ | _ | _
          · by_cases hp1 : rp.status = some "OK"
            · by_cases hp2 : goodCoords rp = true
              · exact absurd ⟨rp, hP, hp1, hp2⟩ hnp
              · simp [tryTypes, hP, hp1, hp2]
            · by_cases hp3 : rp.status = some "NOT_FOUND" <;>
                simp [tryTypes, hP, hp1, hp3]
          · simp [tryTypes, hP]
          · simp [tryTypes, hP]
          · simp [tryTypes, hP]
    · by_cases h3 : r.status = some "NOT_FOUND"
      · -- ROAD not found: falls through to PARCEL
        have hnd : roadNonDefinitive oracle := ⟨r, hR, Or.inl h3⟩
        have ht : tryTypes oracle ["ROAD", "PARCEL"] =
            ((tryTypes oracle ["PARCEL"]).1, "ROAD" :: (tryTypes oracle ["PARCEL"]).2) := by
          simp [tryTypes, hR, h1, h3]
        rw [ht]
        refine ⟨rfl, ?_, ?_⟩
        · constructor
          · intro _; exact hnd
          · intro _
            rcases hP : oracle "PARCEL" with rp | _ | _ | _
            · simp only [tryTypes, hP]
              by_cases hp1 : rp.status = some "OK"
              · by_cases hp2 : goodCoords rp = true <;> simp [hp1, hp2]
              · by_cases hp3 : rp.status = some "NOT_FOUND" <;> simp [hp1, hp3]
            · simp [tryTypes, hP]
            · simp [tryTypes, hP]
            · simp [tryTypes, hP]
        · intro _ hnp
          rcases hP : oracle "PARCEL" with rp | _ | _ | _
          · by_cases hp1 : rp.status = some "OK"
            · by_cases hp2 : goodCoords rp = true
              · exact absurd ⟨rp, hP, hp1, hp2⟩ hnp
              · simp [tryTypes, hP, hp1, hp2]
            · by_cases hp3 : rp.status = some "NOT_FOUND" <;>
                simp [tryTypes, hP, hp1, hp3]
          · simp [tryTypes, hP]
          · simp [tryTypes, hP]
          · simp [tryTypes, hP]
      · -- definitive error status: immediate (None, None), road definitive
        have ht : tryTypes oracle ["ROAD", "PARCEL"] = ((none, none), ["ROAD"]) := by
          simp [tryTypes, hR, h1, h3]
        rw [ht]
        have hnd : ¬ roadNonDefinitive oracle := by
          rintro ⟨r', hr', hcase⟩
          rw [hR] at hr'
          cases hr'
          rcases hcase with hnf | ⟨hok, _⟩
          · exact h3 hnf
          · exact h1 hok
        simp [hnd]
  · -- network error on the ROAD request
    have ht : tryTypes oracle ["ROAD", "PARCEL"] = ((none, none), ["ROAD"]) := by
      simp [tryTypes, hR]
    rw [ht]
    have hnd : ¬ roadNonDefinitive oracle := by
      rintro ⟨r', hr', _⟩; rw [hR] at hr'; cases hr'
    simp [hnd]
  · -- JSON decode error on the ROAD request
    have ht : tryTypes oracle ["ROAD", "PARCEL"] = ((none, none), ["ROAD"]) := by
      simp [tryTypes, hR]
    rw [ht]
    have hnd : ¬ roadNonDefinitive oracle := by
      rintro ⟨r', hr', _⟩; rw [hR] at hr'; cases hr'
    simp [hnd]
  · -- unexpected exception on the ROAD request
    have ht : tryTypes oracle ["ROAD", "PARCEL"] = ((none, none), ["ROAD"]) := by
      simp [tryTypes, hR]
    rw [ht]
    have hnd : ¬ roadNonDefinitive oracle := by
      rintro ⟨r', hr', _⟩; rw [hR] at hr'; cases hr'
    simp [hnd]

/-- Oracle for the C1 witness: `ROAD` not found, `PARCEL` resolves. -/
def c1WitnessOracle : String → GeoFetch := fun t =>
  if t = "ROAD" then .resp ⟨some "NOT_FOUND", none, none⟩
  else .resp ⟨some "OK", some "127.001", some "37.501"⟩

/-- Witness for the amended C1 at a concrete non-blank query. -/
theorem c1_amended_road_then_conditional_parcel_witness :
    ((get_coordinate c1WitnessOracle (PyAddr.str "서울역")).2).head? = some "ROAD" ∧
    ("PARCEL" ∈ (get_coordinate c1WitnessOracle (PyAddr.str "서울역")).2 ↔
      roadNonDefinitive c1WitnessOracle) ∧
    (roadNonDefinitive c1WitnessOracle → ¬ parcelResolves c1WitnessOracle →
      (get_coordinate c1WitnessOracle (PyAddr.str "서울역")).1 = (none, none)) :=
  c1_amended_road_then_conditional_parcel c1WitnessOracle (PyAddr.str "서울역") rfl

/-- Python's substring test `needle in hay`, on explicit character lists. -/
def hasSub (needle : List Char) : List Char → Bool
  | [] => needle.isEmpty
  | c :: t => needle.isPrefixOf (c :: t) || hasSub needle t

/-- The exclusion keyword of `search_place` (`"ATM" in title.upper()`). -/
def atmKey : List Char := ['A', 'T', 'M']

/-- The required region substring of `search_place` (`"서울" in road_address`). -/
def seoulKey : List Char := ['서', '울']

/-- One raw item of a `search_place` result page: `title` is
`item.get('title', 'N/A')`, `road` is
`item.get('address', \x7b\x7d).get('road', '')`, and `px`, `py` are the
values reached by `item['point']['x']` / `item['point']['y']` — `none`
whenever the corresponding subscript would raise `KeyError` (missing `point`
key, or missing `x`/`y` key). -/
structure SearchItem where
  title : List Char
  road : List Char
  px : Option String
  py : Option String
deriving DecidableEq

/-- The per-item filter body of the `for item in result['items']` loop of
`search_place` (`kiosk/geocoding_bank.py`, lines 93-122): first the exclusion
filter (`if "ATM" in title.upper(): continue`), then the region filter
(`if "서울" in road_address`), then coordinate extraction, whose `KeyError`
is caught and turns into a skip with a warning.  Returns the accumulated
entry `(title, x, y)` or `none` when the item is discarded. -/
def keepItem (i : SearchItem) : Option (List Char × String × String) :=
  if hasSub atmKey (i.title.map Char.toUpper) then none
  else if hasSub seoulKey i.road then
    match i.px, i.py with
    | some x, some y => some (i.title, x, y)
    | _, _ => none
  else none

/-- Claim C6: an item whose title contains the exclusion keyword `ATM`
(after upper-casing, hence case-insensitively) is never kept, whatever its
road address or coordinates; the exclusion test is the first executed and
short-circuits the region test. -/
theorem c6_atm_title_always_excluded (i : SearchItem)
    (h : hasSub atmKey (i.title.map Char.toUpper) = true) :
    keepItem i = none := by
  simp [keepItem, h]

/-- Witness for C6: a lower-case `atm` title with a Seoul road address and
full coordinates is still discarded. -/
theorem c6_atm_title_always_excluded_witness :
    keepItem ⟨String.toList "우리은행atm코너", String.toList "서울특별시 중구",
      some "126.98", some "37.56"⟩ = none :=
  c6_atm_title_always_excluded
    ⟨String.toList "우리은행atm코너", String.toList "서울특별시 중구",
      some "126.98", some "37.56"⟩ (by decide)

/-- Item refuting claim C2: it passes the exclusion filter and its road
address contains `서울`, but its `point` entry is absent. -/
def c2Item : SearchItem :=
  ⟨String.toList "신한은행 명동지점", String.toList "서울특별시 중구 명동", none, none⟩

/-- Counterexample to claim C2 as stated: this item passes the exclusion
filter and its road address contains the region substring `서울`, yet it is
not kept — the coordinate subscript raises `KeyError` and the item is
skipped — refuting "every such item with a 서울 address appears in the
output". -/
theorem c2_counterexample :
    hasSub atmKey (c2Item.title.map Char.toUpper) = false ∧
    hasSub seoulKey c2Item.road = true ∧
    keepItem c2Item = none := by
  refine ⟨by decide, by decide, ?_⟩
  simp [keepItem, c2Item]

/-- Claim C2 as amended: an item passing the exclusion filter is kept if and
only if its road address contains the region substring `서울` AND both of its
coordinate fields are present; a Seoul-addressed item without coordinates is
skipped (with a warning) rather than kept. -/
theorem c2_amended_region_and_point (i : SearchItem)
    (h : hasSub atmKey (i.title.map Char.toUpper) = false) :
    (keepItem i).isSome = true ↔
      (hasSub seoulKey i.road = true ∧ i.px.isSome = true ∧ i.py.isSome = true) := by
  rcases hx : i.px with _ | x <;> rcases hy : i.py with _ | y <;>
    by_cases hr : hasSub seoulKey i.road = true <;>
      simp [keepItem, h, hr, hx, hy]

/-- Witness for the amended C2 at a concrete kept item. -/
theorem c2_amended_region_and_point_witness :
    (keepItem ⟨String.toList "신한은행 명동지점", String.toList "서울특별시 중구 명동",
      some "126.98", some "37.56"⟩).isSome = true ↔
      (hasSub seoulKey (SearchItem.road ⟨String.toList "신한은행 명동지점",
        String.toList "서울특별시 중구 명동", some "126.98", some "37.56"⟩) = true ∧
       (Option.some "126.98").isSome = true ∧ (Option.some "37.56").isSome = true) :=
  c2_amended_region_and_point
    ⟨String.toList "신한은행 명동지점", String.toList "서울특별시 중구 명동",
      some "126.98", some "37.56"⟩ (by decide)

/-- A collected entry of `search_place`: `(title, x, y)`. -/
abbrev BankEntry := List Char × String × String

/-- A parsed search response page: `status` is
`data.get('response', \x7b\x7d).get('status')`, `pageTotal` is
`int(page_info.get('total', 1))`, `recordTotal` is
`int(...get('record', \x7b\x7d).get('total', 0))`, and `items` is the item
list of `result['items']` — `none` when `result` is missing/falsy or has no
`items` key (the `데이터 없음` branch). -/
structure PageResp where
  status : Option String
  pageTotal : Nat
  recordTotal : Nat
  items : Option (List SearchItem)
deriving DecidableEq

/-- Outcome of one `requests.get` to the search endpoint. -/
inductive PageFetch
  | resp (r : PageResp)
  | netError
  | jsonError
  | sysError
deriving DecidableEq

/-- The `while current_page <= total_pages` loop of `search_place` for pages
after the first (for which the `if current_page == 1` block is skipped):
on status `OK`, items (if any) are filtered through `keepItem` and appended
to the accumulator and the page counter advances; a `NOT_FOUND` or error
status, or any caught exception, breaks the loop.  Returns the accumulated
entries together with the number of page fetches performed from `page` on. -/
def searchLoop (oracle : Nat → PageFetch) (total page : Nat)
    (acc : List BankEntry) : List BankEntry × Nat :=
  if _h : total < page then (acc, 0)
  else
    match oracle page with
    | .resp r =>
      if r.status = some "OK" then
        match r.items with
        | none =>
          let p := searchLoop oracle total (page + 1) acc
          (p.1, p.2 + 1)
        | some its =>
          let p := searchLoop oracle total (page + 1) (acc ++ its.filterMap keepItem)
          (p.1, p.2 + 1)
      else (acc, 1)
    | _ => (acc, 1)
termination_by total + 1 - page
decreasing_by all_goals omega

/-- `search_place` of `kiosk/geocoding_bank.py`: the first iteration reads
`total_pages` and the total record count from the page-1 response (breaking
at once on a non-`OK` status, a zero record total, or a caught exception),
filters the page-1 items, and then continues with `searchLoop` from page 2.
Returns the collected entries and the number of page fetches performed. -/
def search_place (oracle : Nat → PageFetch) : List BankEntry × Nat :=
  match oracle 1 with
  | .resp r =>
    if r.status = some "OK" then
      if r.recordTotal = 0 then ([], 1)
      else
        match r.items with
        | none =>
          let p := searchLoop oracle r.pageTotal 2 []
          (p.1, p.2 + 1)
        | some its =>
          let p := searchLoop oracle r.pageTotal 2 (its.filterMap keepItem)
          (p.1, p.2 + 1)
    else ([], 1)
  | _ => ([], 1)

/-- Helper: when every page in `[page, total]` answers with a parsed `OK`
response, `searchLoop` performs exactly `total + 1 - page` fetches. -/
theorem searchLoop_attempts_of_ok (oracle : Nat → PageFetch) (total : Nat) :
    ∀ k page acc, total + 1 - page ≤ k →
      (∀ p, page ≤ p → p ≤ total → ∃ rp, oracle p = .resp rp ∧ rp.status = some "OK") →
      (searchLoop oracle total page acc).2 = total + 1 - page := by
  intro k
  induction k with
  | zero =>
    intro page acc hk _
    have hlt : total < page := by omega
    rw [searchLoop, dif_pos hlt]
    omega
  | succ n ih =>
    intro page acc hk hok
    by_cases hlt : total < page
    · rw [searchLoop, dif_pos hlt]
      omega
    · have hple : page ≤ total := by omega
      obtain ⟨rp, hrp, hst⟩ := hok page le_rfl hple
      have hrec : ∀ acc2, (searchLoop oracle total (page + 1) acc2).2 = total + 1 - (page + 1) := by
        intro acc2
        refine ih (page + 1) acc2 (by omega) ?_
        intro p hp1 hp2
        exact hok p (by omega) hp2
      rw [searchLoop, dif_neg hlt, hrp]
      have harith : total + 1 - (page + 1) + 1 = total + 1 - page := by omega
      rcases hits : rp.items with _ | its <;>
        (simp [hst, hits, hrec]; omega)

/-- Oracle refuting claim C7: every fetch answers with a parsed `OK` response
whose metadata reports 2 total pages but a zero total record count. -/
def c7Oracle : Nat → PageFetch := fun _ => .resp ⟨some "OK", 2, 0, some []⟩

/-- Counterexample to claim C7 as stated: the first page reports 2 total
pages, every fetch performed has status `OK` (no error, no not-found), yet
the loop stops after exactly 1 fetch attempt, not 2 — the zero total record
count breaks the loop on page 1. -/
theorem c7_counterexample :
    c7Oracle 1 = PageFetch.resp ⟨some "OK", 2, 0, some []⟩ ∧
    (search_place c7Oracle).2 = 1 ∧ (1 : Nat) ≠ 2 := by
  refine ⟨rfl, ?_, by decide⟩
  rfl

/-- Claim C7 as amended: when the first page answers `OK` reporting `N ≥ 1`
total pages and a nonzero total record count, and every page up to `N`
answers `OK`, the pagination loop performs exactly `N` fetch attempts
(pages 1 through `N`), never `N + 1`. -/
theorem c7_amended_exactly_n_attempts (oracle : Nat → PageFetch) (r1 : PageResp)
    (h1 : oracle 1 = .resp r1) (hst : r1.status = some "OK")
    (hN : 1 ≤ r1.pageTotal) (hrec : r1.recordTotal ≠ 0)
    (hok : ∀ p, 2 ≤ p → p ≤ r1.pageTotal →
      ∃ rp, oracle p = .resp rp ∧ rp.status = some "OK") :
    (search_place oracle).2 = r1.pageTotal := by
  have hloop : ∀ acc, (searchLoop oracle r1.pageTotal 2 acc).2 = r1.pageTotal + 1 - 2 :=
    fun acc =>
      searchLoop_attempts_of_ok oracle r1.pageTotal (r1.pageTotal + 1) 2 acc (by omega) hok
  rw [search_place, h1]
  rcases hits : r1.items with _ | its <;>
    (simp [hst, hrec, hits, hloop]; omega)

/-- Oracle for the C7 witness: three `OK` pages, each reporting 3 total pages
and 5 total records. -/
def c7WitnessOracle : Nat → PageFetch := fun _ => .resp ⟨some "OK", 3, 5, some []⟩

/-- Witness for the amended C7: exactly 3 fetch attempts are made. -/
theorem c7_amended_exactly_n_attempts_witness :
    (search_place c7WitnessOracle).2 = PageResp.pageTotal ⟨some "OK", 3, 5, some []⟩ :=
  c7_amended_exactly_n_attempts c7WitnessOracle ⟨some "OK", 3, 5, some []⟩
    rfl rfl (by decide) (by decide)
    (fun _ _ _ => ⟨⟨some "OK", 3, 5, some []⟩, rfl, rfl⟩)

/-- The entries one page fetch outcome contributes to the accumulator of
`search_place`: the `keepItem`-filtered items of a parsed response, nothing
for a missing item list or a failed fetch. -/
def keptOf : PageFetch → List BankEntry
  | .resp r =>
    match r.items with
    | some its => its.filterMap keepItem
    | none => []
  | _ => []

/-- The entries contributed by the `n` consecutive pages starting at `page`. -/
def keptRange (oracle : Nat → PageFetch) (page : Nat) : Nat → List BankEntry
  | 0 => []
  | n + 1 => keptOf (oracle page) ++ keptRange oracle (page + 1) n

/-- Helper: when pages `page..p-1` answer `OK` and the fetch of page `p`
raises one of the three caught exception classes, `searchLoop` breaks at
page `p`: it performs exactly `p - page + 1` fetches and keeps only the
entries accumulated up to page `p - 1` — pages after `p` are never fetched. -/
theorem searchLoop_stops_at_failure (oracle : Nat → PageFetch) (total p : Nat)
    (hfail : oracle p = .netError ∨ oracle p = .jsonError ∨ oracle p = .sysError) :
    ∀ k page acc, p + 1 - page ≤ k → page ≤ p → p ≤ total →
      (∀ q, page ≤ q → q < p → ∃ rq, oracle q = .resp rq ∧ rq.status = some "OK") →
      searchLoop oracle total page acc =
        (acc ++ keptRange oracle page (p - page), p - page + 1) := by
  intro k
  induction k with
  | zero =>
    intro page acc hk hpage _ _
    omega
  | succ n ih =>
    intro page acc hk hpage htot hok
    have hlt : ¬ total < page := by omega
    by_cases hpp : page = p
    · subst hpp
      rw [searchLoop, dif_neg hlt]
      rcases hfail with hf | hf | hf <;> rw [hf] <;> simp [keptRange]
    · have hplt : page < p := by omega
      obtain ⟨rq, hrq, hst⟩ := hok page le_rfl hplt
      have hm : p - page = (p - (page + 1)) + 1 := by omega
      have hrec : ∀ acc2, searchLoop oracle total (page + 1) acc2 =
          (acc2 ++ keptRange oracle (page + 1) (p - (page + 1)), p - (page + 1) + 1) := by
        intro acc2
        refine ih (page + 1) acc2 (by omega) (by omega) htot ?_
        intro q hq1 hq2
        exact hok q (by omega) hq2
      rw [searchLoop, dif_neg hlt, hrq]
      rcases hits : rq.items with _ | its <;>
        (simp only [hst, if_pos rfl]
         rw [hm, keptRange]
         simp [hrec, keptOf, hrq, hits])

/-- What one listing-page fetch of `kiosk_crawler.py` yields before parsing:
a caught failure (network error, timeout, non-200 status raised as
`RuntimeError`, or any other exception), an HTML page with no
`thead`/`tbody`, or a parsed table (header cells and row cells). -/
inductive CrawlOutcome
  | fetchFail
  | noTable
  | table (cols : List String) (rows : List (List String))
deriving DecidableEq

/-- A parsed page table of `kiosk_crawler.py`: column names (with the added
`page_index` column modelled as the trailing `Nat`), and the data rows. -/
abbrev CrawlPageDf := List String × List (List String) × Nat

/-- `extract_page` of `kiosk/kiosk_crawler.py`: every exception inside the
fetch/parse is caught and turned into `None`; a page without `thead`/`tbody`
also yields `None`; otherwise the scraped table is returned with the page
index attached. -/
def extract_page (out : CrawlOutcome) (pageIndex : Nat) : Option CrawlPageDf :=
  match out with
  | .fetchFail => none
  | .noTable => none
  | .table cols rows => some (cols, rows, pageIndex)

/-- The per-page results `main` of `kiosk_crawler.py` collects: one
`extract_page` call is submitted for every page of the range, and every
submitted call runs to completion independently of the others' outcomes. -/
def crawlPages (oracle : Nat → CrawlOutcome) (pages : List Nat) :
    List (Option CrawlPageDf) :=
  pages.map (fun p => extract_page (oracle p) p)

/-- The non-`None`, non-empty page tables kept for concatenation
(`if result_df is not None and not result_df.empty`). -/
def crawlCollected (oracle : Nat → CrawlOutcome) (pages : List Nat) :
    List CrawlPageDf :=
  ((crawlPages oracle pages).filterMap id).filter (fun df => !df.2.1.isEmpty)

/-- One row of the open-data response (`result.get("row", [])` of
`public_api.py`), as the key-value pairs of its JSON object. -/
abbrev KioskRow := List (String × String)

/-- Outcome of one row-range request of `fetch_all_kiosk_data`: a JSON body
containing the `TbKioskInfo` service key (with its `row` array), a body
without it (`RESULT` error object or unknown shape — both `break`), or one
of the three caught exception classes. -/
inductive KioskFetch
  | page (rows : List KioskRow)
  | noService
  | netError
  | jsonError
  | sysError
deriving DecidableEq

/-- `fetch_all_kiosk_data` of `kiosk/public_api.py`.  The source loop is
`while True`, terminated only by its `break` statements; `fuel` is the
modelling bound on iterations, and every theorem below supplies fuel larger
than the iteration at which the source loop breaks.  `i` counts iterations
(the source requests rows `1 + 1000*i .. 1000*(i+1)`).  Returns the
accumulated rows and the number of requests performed: an empty `row` array,
a body without the service key, or a caught exception breaks the loop;
otherwise the rows are appended and the loop continues. -/
def fetch_all_kiosk_data (oracle : Nat → KioskFetch) :
    Nat → Nat → List KioskRow → List KioskRow × Nat
  | 0, _, acc => (acc, 0)
  | fuel + 1, i, acc =>
    match oracle i with
    | .page rows =>
      if rows.isEmpty then (acc, 1)
      else
        let p := fetch_all_kiosk_data oracle fuel (i + 1) (acc ++ rows)
        (p.1, p.2 + 1)
    | _ => (acc, 1)

/-- The rows a single open-data fetch outcome contributes. -/
def rowsOf : KioskFetch → List KioskRow
  | .page rows => rows
  | _ => []

/-- The rows contributed by `n` consecutive iterations starting at `i`. -/
def kioskRowsRange (oracle : Nat → KioskFetch) (i : Nat) : Nat → List KioskRow
  | 0 => []
  | n + 1 => rowsOf (oracle i) ++ kioskRowsRange oracle (i + 1) n

/-- An outcome on which the `while True` loop of `fetch_all_kiosk_data`
breaks: an empty `row` array, a missing service key, or a caught exception. -/
def kioskStops : KioskFetch → Bool
  | .page rows => rows.isEmpty
  | _ => true

/-- Helper: when iterations `i..k-1` return non-empty row pages and the
outcome of iteration `k` is a break condition, `fetch_all_kiosk_data`
performs exactly `k - i + 1` requests and returns the rows accumulated from
iterations `i..k-1`. -/
theorem fetch_all_stops (oracle : Nat → KioskFetch) (k : Nat)
    (hstop : kioskStops (oracle k) = true) :
    ∀ fuel i acc, k < i + fuel → i ≤ k →
      (∀ j, i ≤ j → j < k → ∃ rs, oracle j = .page rs ∧ rs ≠ []) →
      fetch_all_kiosk_data oracle fuel i acc =
        (acc ++ kioskRowsRange oracle i (k - i), k - i + 1) := by
  intro fuel
  induction fuel with
  | zero =>
    intro i acc hfuel hik _
    omega
  | succ n ih =>
    intro i acc hfuel hik hok
    by_cases hkk : i = k
    · subst hkk
      rw [fetch_all_kiosk_data]
      rcases ho : oracle i with rows | _ | _ | _ | _ <;> rw [ho] at hstop <;>
        simp [kioskStops] at hstop ⊢ <;> simp [hstop, kioskRowsRange]
    · have hlt : i < k := by omega
      obtain ⟨rs, hrs, hne⟩ := hok i le_rfl hlt
      have hm : k - i = (k - (i + 1)) + 1 := by omega
      have hrec : ∀ acc2, fetch_all_kiosk_data oracle n (i + 1) acc2 =
          (acc2 ++ kioskRowsRange oracle (i + 1) (k - (i + 1)), k - (i + 1) + 1) := by
        intro acc2
        refine ih (i + 1) acc2 (by omega) (by omega) ?_
        intro j hj1 hj2
        exact hok j (by omega) hj2
      rw [fetch_all_kiosk_data, hrs]
      have hemp : rs.isEmpty = false := by
        cases rs with
        | nil => exact absurd rfl hne
        | cons a l => rfl
      rw [hm, kioskRowsRange]
      simp [hemp, hrec, rowsOf, hrs]

/-- A keepable page-1 item for the C3 counterexample. -/
def c3ItemA : SearchItem :=
  ⟨String.toList "우리은행 본점", String.toList "서울특별시 중구", some "126.98", some "37.56"⟩

/-- A keepable page-3 item that the C3 counterexample run never collects. -/
def c3ItemB : SearchItem :=
  ⟨String.toList "우리은행 강남지점", String.toList "서울특별시 강남구", some "127.02", some "37.49"⟩

/-- Oracle refuting claim C3: page 1 answers `OK` reporting 3 total pages,
the fetch of page 2 raises a network error, and page 3 would answer `OK`
with a keepable item. -/
def c3Oracle : Nat → PageFetch := fun p =>
  match p with
  | 2 => .netError
  | 3 => .resp ⟨some "OK", 3, 61, some [c3ItemB]⟩
  | _ => .resp ⟨some "OK", 3, 61, some [c3ItemA]⟩

/-- Counterexample to claim C3 as stated: in `search_place` a network
failure on page 2 of 3 is NOT treated as "no result for that page only" —
the loop breaks, only 2 of the 3 pages are ever fetched, and the keepable
item of page 3 is absent from the output. -/
theorem c3_counterexample :
    c3Oracle 2 = PageFetch.netError ∧
    c3Oracle 3 = PageFetch.resp ⟨some "OK", 3, 61, some [c3ItemB]⟩ ∧
    (search_place c3Oracle).2 = 2 ∧
    (search_place c3Oracle).1 = [(String.toList "우리은행 본점", "126.98", "37.56")] := by
  have e1 : c3Oracle 1 = PageFetch.resp ⟨some "OK", 3, 61, some [c3ItemA]⟩ := rfl
  have ekeep : List.filterMap keepItem [c3ItemA] =
      [(String.toList "우리은행 본점", "126.98", "37.56")] := by decide
  have hL2 : ∀ acc : List BankEntry, searchLoop c3Oracle 3 2 acc = (acc, 1) := by
    intro acc
    rw [searchLoop]
    simp [c3Oracle]
  have hmain : search_place c3Oracle =
      ([(String.toList "우리은행 본점", "126.98", "37.56")], 2) := by
    rw [search_place, e1]
    simp [ekeep, hL2]
  exact ⟨rfl, rfl, by rw [hmain], by rw [hmain]⟩

/-- Claim C3 as amended: a transient network failure, malformed response
body, or unexpected exception while fetching a single page is caught in all
three harvesting scripts, but with different scope.  In the concurrent
listing crawler (`kiosk_crawler.py`) the failing page alone yields `None`
and every page of the range is still attempted.  In the sequential
pagination loops (`search_place` of `geocoding_bank.py` and
`fetch_all_kiosk_data` of `public_api.py`) the failure breaks that loop: the
rows accumulated from the earlier pages are returned, and the remaining
pages of that harvest are not fetched (other harvest units, such as other
bank queries, are unaffected since each calls `search_place` afresh). -/
theorem c3_amended_failure_scope
    (co : Nat → CrawlOutcome) (pages : List Nat) (q : Nat)
    (so : Nat → PageFetch) (r1 : PageResp) (p : Nat)
    (ko : Nat → KioskFetch) (k fuel : Nat)
    (hq : co q = .fetchFail)
    (h1 : so 1 = .resp r1) (hst1 : r1.status = some "OK")
    (hrec1 : r1.recordTotal ≠ 0) (hp2 : 2 ≤ p) (hpt : p ≤ r1.pageTotal)
    (hokS : ∀ j, 2 ≤ j → j < p → ∃ rj, so j = .resp rj ∧ rj.status = some "OK")
    (hfailS : so p = .netError ∨ so p = .jsonError ∨ so p = .sysError)
    (hokK : ∀ j, j < k → ∃ rs, ko j = .page rs ∧ rs ≠ [])
    (hfailK : ko k = .netError ∨ ko k = .jsonError ∨ ko k = .sysError)
    (hfuel : k < fuel) :
    (crawlPages co pages).length = pages.length ∧
    extract_page (co q) q = none ∧
    search_place so = (keptOf (so 1) ++ keptRange so 2 (p - 2), p) ∧
    fetch_all_kiosk_data ko fuel 0 [] = (kioskRowsRange ko 0 k, k + 1) := by
  refine ⟨by simp [crawlPages], by rw [hq]; rfl, ?_, ?_⟩
  · have hloop : ∀ acc, searchLoop so r1.pageTotal 2 acc =
        (acc ++ keptRange so 2 (p - 2), p - 2 + 1) := by
      intro acc
      exact searchLoop_stops_at_failure so r1.pageTotal p hfailS
        (p + 1) 2 acc (by omega) hp2 hpt hokS
    rw [search_place, h1]
    rcases hits : r1.items with _ | its
    · simp [hst1, hrec1, hits, hloop, keptOf, h1]
      omega
    · simp [hst1, hrec1, hits, hloop, keptOf, h1]
      omega
  · have hstop : kioskStops (ko k) = true := by
      rcases hfailK with hf | hf | hf <;> rw [hf] <;> rfl
    have := fetch_all_stops ko k hstop fuel 0 [] (by omega) (by omega) (fun j _ hj => hokK j hj)
    simpa using this

/-- Crawler oracle for the C3 witness: every page fetch fails. -/
def c3WCrawl : Nat → CrawlOutcome := fun _ => .fetchFail

/-- Search oracle for the C3 witness: page 1 `OK` (4 pages, 10 records),
page 2 fails with a network error. -/
def c3WSearch : Nat → PageFetch := fun p =>
  match p with
  | 2 => .netError
  | _ => .resp ⟨some "OK", 4, 10, some []⟩

/-- Open-data oracle for the C3 witness: iteration 0 returns one row,
iteration 1 fails with a network error. -/
def c3WKiosk : Nat → KioskFetch := fun i =>
  match i with
  | 0 => .page [[("MGTNO", "1")]]
  | _ => .netError

/-- Witness for the amended C3 at concrete oracles. -/
theorem c3_amended_failure_scope_witness :
    (crawlPages c3WCrawl [1, 2, 3]).length = [1, 2, 3].length ∧
    extract_page (c3WCrawl 2) 2 = none ∧
    search_place c3WSearch = (keptOf (c3WSearch 1) ++ keptRange c3WSearch 2 (2 - 2), 2) ∧
    fetch_all_kiosk_data c3WKiosk 3 0 [] = (kioskRowsRange c3WKiosk 0 1, 1 + 1) := by
  refine c3_amended_failure_scope c3WCrawl [1, 2, 3] 2 c3WSearch
    ⟨some "OK", 4, 10, some []⟩ 2 c3WKiosk 1 3 rfl rfl rfl (by decide) (by decide)
    (by decide) (fun j hj1 hj2 => absurd (lt_of_le_of_lt hj1 hj2) (by omega))
    (Or.inl rfl) ?_ (Or.inl rfl) (by decide)
  intro j hj
  have hj0 : j = 0 := by omega
  subst hj0
  exact ⟨[[("MGTNO", "1")]], rfl, by decide⟩

/-- The four columns `main` of `public_api.py` selects before writing. -/
def requiredColumns : List String :=
  ["MGTNO", "OPNSFTEAMNM", "KIOSKNM", "ESBPLCADDR"]

/-- Whether the collected data has a column named `c`: a pandas DataFrame
built from a list of JSON objects has a column for every key occurring in
some row. -/
def hasColumn (rows : List KioskRow) (c : String) : Bool :=
  rows.any (fun r => r.any (fun kv => kv.1 = c))

/-- `available_columns = [col for col in required_columns if col in df.columns]`
of `public_api.py` `main`. -/
def availableColumns (rows : List KioskRow) : List String :=
  requiredColumns.filter (hasColumn rows)

/-- Whether `main` of `public_api.py` writes `seoul_kiosk_list.csv`: it
returns early both when no data was collected and when none of the four
required columns occurs in the data. -/
def kioskMainWrites (rows : List KioskRow) : Bool :=
  !rows.isEmpty && !(availableColumns rows).isEmpty

/-- Oracle refuting the write clause of claim C9: iteration 0 returns one
row carrying none of the required columns, iteration 1 returns zero rows. -/
def c9Oracle : Nat → KioskFetch := fun i =>
  match i with
  | 0 => .page [[("FOO", "1")]]
  | _ => .page []

/-- Counterexample to claim C9 as stated: the zero-row range stops the
harvest with one previously accumulated row, yet no output file is written —
the accumulated row has none of the four required columns, so `main` returns
before writing. -/
theorem c9_counterexample :
    c9Oracle 1 = KioskFetch.page [] ∧
    (fetch_all_kiosk_data c9Oracle 5 0 []).1 = [[("FOO", "1")]] ∧
    [[("FOO", "1")]] ≠ ([] : List KioskRow) ∧
    kioskMainWrites [[("FOO", "1")]] = false := by
  have h1 : fetch_all_kiosk_data c9Oracle 5 0 [] = ([[("FOO", "1")]], 2) := by
    rw [fetch_all_kiosk_data]
    simp [c9Oracle]
    rw [fetch_all_kiosk_data]
    simp [c9Oracle]
  exact ⟨rfl, by rw [h1], by decide, by decide⟩

/-- Claim C9 as amended: when iterations `0..k-1` return non-empty row pages
and iteration `k` returns a zero-row page, `fetch_all_kiosk_data` stops
immediately — `k + 1` requests, nothing past iteration `k` fetched — and
returns all previously accumulated rows; those rows are then written to the
output file provided at least one row was accumulated AND at least one of
the four required columns occurs in the collected data. -/
theorem c9_amended_stop_and_write (oracle : Nat → KioskFetch) (k fuel : Nat)
    (hok : ∀ j, j < k → ∃ rs, oracle j = .page rs ∧ rs ≠ [])
    (hk : oracle k = .page []) (hfuel : k < fuel) :
    fetch_all_kiosk_data oracle fuel 0 [] = (kioskRowsRange oracle 0 k, k + 1) ∧
    ((kioskRowsRange oracle 0 k) ≠ [] →
      availableColumns (kioskRowsRange oracle 0 k) ≠ [] →
      kioskMainWrites (kioskRowsRange oracle 0 k) = true) := by
  constructor
  · have hstop : kioskStops (oracle k) = true := by rw [hk]; rfl
    have := fetch_all_stops oracle k hstop fuel 0 [] (by omega) (by omega)
      (fun j _ hj => hok j hj)
    simpa using this
  · intro hne hcols
    simp only [kioskMainWrites, Bool.and_eq_true, Bool.not_eq_true']
    constructor
    · simpa [List.isEmpty_iff] using hne
    · simpa [List.isEmpty_iff] using hcols

/-- Oracle for the C9 witness: iteration 0 returns one row with an `MGTNO`
column, iteration 1 returns zero rows. -/
def c9WOracle : Nat → KioskFetch := fun i =>
  match i with
  | 0 => .page [[("MGTNO", "K001"), ("ESBPLCADDR", "서울특별시 중구")]]
  | _ => .page []

/-- Witness for the amended C9 at a concrete oracle. -/
theorem c9_amended_stop_and_write_witness :
    fetch_all_kiosk_data c9WOracle 4 0 [] = (kioskRowsRange c9WOracle 0 1, 1 + 1) ∧
    ((kioskRowsRange c9WOracle 0 1) ≠ [] →
      availableColumns (kioskRowsRange c9WOracle 0 1) ≠ [] →
      kioskMainWrites (kioskRowsRange c9WOracle 0 1) = true) := by
  refine c9_amended_stop_and_write c9WOracle 1 4 ?_ rfl (by decide)
  intro j hj
  have hj0 : j = 0 := by omega
  subst hj0
  exact ⟨[[("MGTNO", "K001"), ("ESBPLCADDR", "서울특별시 중구")]], rfl, by decide⟩

/-- One input row of `digital_study/geocoding_xy.py`: `data` is `list(row)`
(the original CSV cells) and `addr` is the value of the `주소` column
(`row.get('주소')`), which may be a missing value. -/
structure XyRow where
  data : List (Option String)
  addr : PyAddr

/-- The `for index, row in df.iterrows()` loop of `main` in
`digital_study/geocoding_xy.py`: every row — resolved or not — contributes
exactly one output row, `list(row) + [x, y]`, in input order.  The oracle is
indexed by the row's address since each address is geocoded separately. -/
def processRows (oracle : PyAddr → String → GeoFetch) (rows : List XyRow) :
    List (List (Option String)) :=
  rows.map (fun r =>
    r.data ++ [(get_coordinate (oracle r.addr) r.addr).1.1,
               (get_coordinate (oracle r.addr) r.addr).1.2])

/-- One input row of `kiosk/geocoding_public.py` `main`: the four columns it
reads (`MGTNO`, `OPNSFTEAMNM`, `KIOSKNM`, `ESBPLCADDR`). -/
structure KioskGeoRow where
  mgtno : Option String
  sgg : Option String
  kioskName : Option String
  addr : PyAddr

/-- The output tuple `(mgtno, sgg_name, kiosk_name, address, x, y)` appended
per row by `main` of `kiosk/geocoding_public.py`. -/
abbrev KioskGeoOut :=
  Option String × Option String × Option String × PyAddr × Option String × Option String

/-- The `for index, row in df.iterrows()` loop of `main` in
`kiosk/geocoding_public.py`: one output tuple per input row, in input
order. -/
def processKioskRows (oracle : PyAddr → String → GeoFetch)
    (rows : List KioskGeoRow) : List KioskGeoOut :=
  rows.map (fun r =>
    (r.mgtno, r.sgg, r.kioskName, r.addr,
     (get_coordinate (oracle r.addr) r.addr).1.1,
     (get_coordinate (oracle r.addr) r.addr).1.2))

/-- Claim C5: in both geocoding scripts the output has exactly one row per
input query, in input order — same length, and the `i`-th output row is
built from the `i`-th input row — and an unresolved query still yields its
row with both coordinate fields `None`. -/
theorem c5_one_row_per_query (oracle : PyAddr → String → GeoFetch)
    (rows : List XyRow) (krows : List KioskGeoRow) (i j : Nat)
    (r : XyRow) (s : KioskGeoRow)
    (hr : rows[i]? = some r) (hs : krows[j]? = some s) :
    (processRows oracle rows).length = rows.length ∧
    (processKioskRows oracle krows).length = krows.length ∧
    (processRows oracle rows)[i]? = some (r.data ++
      [(get_coordinate (oracle r.addr) r.addr).1.1,
       (get_coordinate (oracle r.addr) r.addr).1.2]) ∧
    (processKioskRows oracle krows)[j]? = some (s.mgtno, s.sgg, s.kioskName, s.addr,
      (get_coordinate (oracle s.addr) s.addr).1.1,
      (get_coordinate (oracle s.addr) s.addr).1.2) ∧
    ((get_coordinate (oracle r.addr) r.addr).1 = (none, none) →
      (processRows oracle rows)[i]? = some (r.data ++ [none, none])) := by
  refine ⟨by simp [processRows], by simp [processKioskRows], ?_, ?_, ?_⟩
  · simp [processRows, List.getElem?_map, hr]
  · simp [processKioskRows, List.getElem?_map, hs]
  · intro hcoord
    have h1 : (get_coordinate (oracle r.addr) r.addr).1.1 = none := by rw [hcoord]
    have h2 : (get_coordinate (oracle r.addr) r.addr).1.2 = none := by rw [hcoord]
    simp [processRows, List.getElem?_map, hr, h1, h2]

/-- Witness for C5 at one-row inputs whose query does not resolve. -/
theorem c5_one_row_per_query_witness :
    (processRows (fun _ _ => GeoFetch.netError) [⟨[some "행"], PyAddr.str "주소1"⟩]).length =
      [(⟨[some "행"], PyAddr.str "주소1"⟩ : XyRow)].length ∧
    (processKioskRows (fun _ _ => GeoFetch.netError)
      [⟨some "m", some "s", some "k", PyAddr.nan⟩]).length =
      [(⟨some "m", some "s", some "k", PyAddr.nan⟩ : KioskGeoRow)].length ∧
    (processRows (fun _ _ => GeoFetch.netError) [⟨[some "행"], PyAddr.str "주소1"⟩])[0]? =
      some ([some "행"] ++
        [(get_coordinate ((fun (_ : PyAddr) (_ : String) => GeoFetch.netError)
            (PyAddr.str "주소1")) (PyAddr.str "주소1")).1.1,
         (get_coordinate ((fun (_ : PyAddr) (_ : String) => GeoFetch.netError)
            (PyAddr.str "주소1")) (PyAddr.str "주소1")).1.2]) ∧
    (processKioskRows (fun _ _ => GeoFetch.netError)
      [⟨some "m", some "s", some "k", PyAddr.nan⟩])[0]? =
      some (some "m", some "s", some "k", PyAddr.nan,
        (get_coordinate ((fun (_ : PyAddr) (_ : String) => GeoFetch.netError)
            PyAddr.nan) PyAddr.nan).1.1,
        (get_coordinate ((fun (_ : PyAddr) (_ : String) => GeoFetch.netError)
            PyAddr.nan) PyAddr.nan).1.2) ∧
    ((get_coordinate ((fun (_ : PyAddr) (_ : String) => GeoFetch.netError)
        (PyAddr.str "주소1")) (PyAddr.str "주소1")).1 = (none, none) →
      (processRows (fun _ _ => GeoFetch.netError) [⟨[some "행"], PyAddr.str "주소1"⟩])[0]? =
        some ([some "행"] ++ [none, none])) :=
  c5_one_row_per_query (fun _ _ => GeoFetch.netError)
    [⟨[some "행"], PyAddr.str "주소1"⟩] [⟨some "m", some "s", some "k", PyAddr.nan⟩]
    0 0 ⟨[some "행"], PyAddr.str "주소1"⟩ ⟨some "m", some "s", some "k", PyAddr.nan⟩
    rfl rfl

/-- Observable trace of one script run: how many remote requests were
issued, whether the output CSV was written, and whether a credential-read
failure was reported to the console. -/
structure RunTrace where
  netRequests : Nat
  wroteOutput : Bool
  reportedCredFailure : Bool
deriving DecidableEq

/-- Requests issued by the geocoding loop of `geocoding_xy.py`: one per
classification type actually attempted per row. -/
def rowsRequests (oracle : PyAddr → String → GeoFetch) (rows : List XyRow) : Nat :=
  (rows.map (fun r => (get_coordinate (oracle r.addr) r.addr).2.length)).sum

/-- Requests issued by the geocoding loop of `geocoding_public.py`. -/
def kioskRowsRequests (oracle : PyAddr → String → GeoFetch)
    (rows : List KioskGeoRow) : Nat :=
  (rows.map (fun r => (get_coordinate (oracle r.addr) r.addr).2.length)).sum

/-- `main` of `digital_study/geocoding_xy.py`: a failed `key.txt` read
prints a message and returns before any request; a failed input-file read
likewise; otherwise the row loop runs and the CSV is written iff the result
list is non-empty. -/
def xyMain (cred : Option String) (input : Option (List XyRow))
    (oracle : PyAddr → String → GeoFetch) : RunTrace :=
  match cred with
  | none => ⟨0, false, true⟩
  | some _ =>
    match input with
    | none => ⟨0, false, false⟩
    | some rows =>
      ⟨rowsRequests oracle rows, !(processRows oracle rows).isEmpty, false⟩

/-- `main` of `kiosk/geocoding_public.py`, same structure as `xyMain`. -/
def kioskGeoMain (cred : Option String) (input : Option (List KioskGeoRow))
    (oracle : PyAddr → String → GeoFetch) : RunTrace :=
  match cred with
  | none => ⟨0, false, true⟩
  | some _ =>
    match input with
    | none => ⟨0, false, false⟩
    | some rows =>
      ⟨kioskRowsRequests oracle rows, !(processKioskRows oracle rows).isEmpty, false⟩

/-- `main` of `kiosk/public_api.py`: a failed `public_key.txt` read prints a
message and returns before any request; otherwise the harvest runs and the
CSV is written under `kioskMainWrites`. -/
def publicApiMain (cred : Option String) (oracle : Nat → KioskFetch)
    (fuel : Nat) : RunTrace :=
  match cred with
  | none => ⟨0, false, true⟩
  | some _ =>
    let p := fetch_all_kiosk_data oracle fuel 0 []
    ⟨p.2, kioskMainWrites p.1, false⟩

/-- The fixed query list of `kiosk/geocoding_bank.py` `main`. -/
def bankList : List String :=
  ["우리은행", "농협은행", "신한은행", "하나은행", "기업은행", "국민은행"]

/-- `main` of `kiosk/geocoding_bank.py`.  Unlike the other scripts, its
credential `except` clause prints a message but does NOT `return`; execution
continues with the name `key` unbound, so evaluating the argument of the
first `search_place(key, query)` call raises `NameError`, which the
`try/except` around the query loop catches — before any request is issued
and with the result list still empty, so no CSV is written either.  The
`none` branch records that observable behaviour. -/
def bankMain (cred : Option String) (oracle : String → Nat → PageFetch) : RunTrace :=
  match cred with
  | none => ⟨0, false, true⟩
  | some _ =>
    ⟨(bankList.map (fun q => (search_place (oracle q)).2)).sum,
     !((bankList.map (fun q => (search_place (oracle q)).1)).flatten).isEmpty,
     false⟩

/-- Claim C4: in every script that reads a credential file (the concurrent
crawler reads none), a failed credential read leaves a run that issues zero
network requests, writes no output file, and reports the failure — in three
scripts by returning at once, and in `geocoding_bank.py` by the caught
`NameError` on the unbound `key` before the first request. -/
theorem c4_missing_credential_aborts
    (input : Option (List XyRow)) (kinput : Option (List KioskGeoRow))
    (g1 g2 : PyAddr → String → GeoFetch) (ko : Nat → KioskFetch) (fuel : Nat)
    (so : String → Nat → PageFetch) :
    xyMain none input g1 = ⟨0, false, true⟩ ∧
    kioskGeoMain none kinput g2 = ⟨0, false, true⟩ ∧
    publicApiMain none ko fuel = ⟨0, false, true⟩ ∧
    bankMain none so = ⟨0, false, true⟩ :=
  ⟨rfl, rfl, rfl, rfl⟩
